import Mathlib

/-!
# iotex-explorer: address API layer and dashboard statistics

A shallow embedding of `src/shared/address/address-handler.js` (the handlers
registered by `setAddressRoutes`, the vote-closing pass `cleanVotes`, the
route registration loop) and of `BlockchainExplorer.formStats` from
`src/shared/blockchain-explorer/blockchain-explorer.js`, with the properties
the specification states about them.

Conventions of the embedding:

* a JavaScript value that may be `undefined` is an `Option`;
* a vote record is a value `{id, out, ...fields}`; the gateway returns freshly
  built records, so two slots never hold the same object and the in-place
  assignment `votes[i].out = true` is the functional update of that record;
* an awaited gateway call either resolves to a value or rejects with an
  error: `Except ε α`;
* a handler is a function from the context `ctx` to the context after the
  handler ran, in `Except` so that an error leaving the handler is visible.
-/

set_option autoImplicit false

namespace IotexExplorer

/-! ## Vote records and the closing pass -/

/-- A vote record `{id, out, ...fields}`: `out` is `none` while the record has
no `out` field, `fields` stands for every other field of the record. -/
structure Vote (ρ : Type) where
  id : String
  out : Option Bool
  fields : ρ
  deriving DecidableEq, Repr

/-- A slot `votes[i]` of the array: `none` is `undefined`. -/
abbrev Slot (ρ : Type) := Option (Vote ρ)

/-- The body of the `for` loop of `cleanVotes`, from index `i` on: the first
argument is `votes[i..]`, then the loop variable `prevId` and the array `res`.
```
if (votes[i] !== undefined) {
  if (prevId !== votes[i].id) { votes[i].out = true; }
  prevId = votes[i].id;
  res.push(votes[i]);
}
``` -/
def cleanVotesLoop {ρ : Type} : List (Slot ρ) → String → List (Slot ρ) → List (Slot ρ)
  | [], _, res => res
  | none :: rest, prevId, res => cleanVotesLoop rest prevId res
  | some vote :: rest, prevId, res =>
    let vote := if prevId ≠ vote.id then { vote with out := some true } else vote
    cleanVotesLoop rest vote.id (res ++ [some vote])

/-- The function `cleanVotes(votes)`: `res = []`, and when `votes` is truthy
the loop runs from `prevId = ''`; an absent `votes` is `none`. -/
def cleanVotes {ρ : Type} (votes : Option (List (Slot ρ))) : List (Slot ρ) :=
  match votes with
  | none => []
  | some votes => cleanVotesLoop votes "" []

/-- The value of the loop variable `prevId` after the loop of `cleanVotes` has
gone through `votes`, started with `prevId`. -/
def prevIdAfter {ρ : Type} : List (Slot ρ) → String → String
  | [], prevId => prevId
  | none :: rest, prevId => prevIdAfter rest prevId
  | some vote :: rest, _ => prevIdAfter rest vote.id

/-! ## The handlers of `setAddressRoutes` -/

section Handlers

variable {ι ν δ γ ρ ε : Type}

/-- The fields `{id, offset, count}` the handlers read from `ctx.request.body`;
`ι` is the type of an id, `ν` of an offset or count (either may be a type
with a value for `undefined`: the handlers only pass them on). -/
structure RequestBody (ι ν : Type) where
  id : ι
  offset : ν
  count : ν
  deriving DecidableEq, Repr

/-- The request `ctx.request`. -/
structure Request (ι ν : Type) where
  body : RequestBody ι ν
  deriving DecidableEq, Repr

/-- The response bodies the handlers assign to `ctx.body`:
* `okData key v` is `{ok: true, [key]: v}`;
* `okPage key v offset count` is `{ok: true, [key]: v, offset, count}`;
* `failCoded code message id` is
  `{ok: false, error: {code, message, data: {id}}}`;
* `failRaw error` is `{ok: false, error}`. -/
inductive Body (ι ν α ε : Type) where
  | okData (key : String) (value : α)
  | okPage (key : String) (value : α) (offset count : ν)
  | failCoded (code message : String) (id : ι)
  | failRaw (error : ε)
  deriving DecidableEq, Repr

/-- The field `ok` of a response body. -/
def Body.ok {ι ν α ε : Type} : Body ι ν α ε → Bool
  | .okData _ _ => true
  | .okPage _ _ _ _ => true
  | .failCoded _ _ _ => false
  | .failRaw _ => false

/-- The context `ctx` of a handler: the request and the response body, which
is `none` until a handler assigns it. -/
structure Ctx (ι ν β : Type) where
  request : Request ι ν
  body : Option β
  deriving DecidableEq, Repr

/-- The gateway `server.gateways.iotexCore`: each awaited call resolves to a
value (`.ok`) or rejects with an error (`.error`). `δ` is the type of address
details, `γ` of a collection of a relation; the votes come as an array of
slots, or no array at all. -/
structure Gateway (ι ν δ γ ρ ε : Type) where
  getAddressDetails : ι → Except ε δ
  getExecutionsByAddress : ι → ν → ν → Except ε γ
  getTransfersByAddress : ι → ν → ν → Except ε γ
  getSettleDepositsByAddress : ι → ν → ν → Except ε γ
  getCreateDepositsByAddress : ι → ν → ν → Except ε γ
  getVotesByAddress : ι → ν → ν → Except ε (Option (List (Slot ρ)))

/-- The handler `getAddressId(ctx, next)`. -/
def getAddressId (iotexCore : Gateway ι ν δ γ ρ ε) (ctx : Ctx ι ν (Body ι ν δ ε)) :
    Except ε (Ctx ι ν (Body ι ν δ ε)) :=
  let id := ctx.request.body.id
  tryCatch
    (do
      let address ← iotexCore.getAddressDetails id
      pure { ctx with body := some (.okData "address" address) })
    (fun _ =>
      pure { ctx with body := some (.failCoded "FAIL_GET_ADDRESS" "address.error.failGetAddress" id) })

/-- The handler `getAddressExecutionsId(ctx, next)`. -/
def getAddressExecutionsId (iotexCore : Gateway ι ν δ γ ρ ε) (ctx : Ctx ι ν (Body ι ν γ ε)) :
    Except ε (Ctx ι ν (Body ι ν γ ε)) :=
  tryCatch
    (do
      let executions ← iotexCore.getExecutionsByAddress
        ctx.request.body.id ctx.request.body.offset ctx.request.body.count
      pure { ctx with body := some (.okPage "executions" executions ctx.request.body.offset ctx.request.body.count) })
    (fun error => pure { ctx with body := some (.failRaw error) })

/-- The handler `getAddressTransfersId(ctx, next)`. -/
def getAddressTransfersId (iotexCore : Gateway ι ν δ γ ρ ε) (ctx : Ctx ι ν (Body ι ν γ ε)) :
    Except ε (Ctx ι ν (Body ι ν γ ε)) :=
  let id := ctx.request.body.id
  let offset := ctx.request.body.offset
  let count := ctx.request.body.count
  tryCatch
    (do
      let transfers ← iotexCore.getTransfersByAddress id offset count
      pure { ctx with body := some (.okPage "transfers" transfers ctx.request.body.offset ctx.request.body.count) })
    (fun _ =>
      pure { ctx with body := some (.failCoded "FAIL_GET_ADDRESS_TRANSFERS" "address.error.failGetTransfers" id) })

/-- The handler `getAddressSettleDepositsId(ctx, next)`. -/
def getAddressSettleDepositsId (iotexCore : Gateway ι ν δ γ ρ ε)
    (ctx : Ctx ι ν (Body ι ν γ ε)) : Except ε (Ctx ι ν (Body ι ν γ ε)) :=
  let id := ctx.request.body.id
  let offset := ctx.request.body.offset
  let count := ctx.request.body.count
  tryCatch
    (do
      let settleDeposits ← iotexCore.getSettleDepositsByAddress id offset count
      pure { ctx with body := some (.okPage "settleDeposits" settleDeposits ctx.request.body.offset ctx.request.body.count) })
    (fun _ =>
      pure { ctx with body := some (.failCoded "FAIL_GET_SETTLE_DEPOSITS" "address.error.failGetSettleDeposits" id) })

/-- The handler `getAddressCreateDepositsId(ctx, next)`. -/
def getAddressCreateDepositsId (iotexCore : Gateway ι ν δ γ ρ ε)
    (ctx : Ctx ι ν (Body ι ν γ ε)) : Except ε (Ctx ι ν (Body ι ν γ ε)) :=
  let id := ctx.request.body.id
  let offset := ctx.request.body.offset
  let count := ctx.request.body.count
  tryCatch
    (do
      let createDeposits ← iotexCore.getCreateDepositsByAddress id offset count
      pure { ctx with body := some (.okPage "createDeposits" createDeposits ctx.request.body.offset ctx.request.body.count) })
    (fun _ =>
      pure { ctx with body := some (.failCoded "FAIL_GET_CREATE_DEPOSITS" "address.error.failGetCreateDeposits" id) })

/-- The handler `getAddressVotersId(ctx, next)`. -/
def getAddressVotersId (iotexCore : Gateway ι ν δ γ ρ ε)
    (ctx : Ctx ι ν (Body ι ν (List (Slot ρ)) ε)) :
    Except ε (Ctx ι ν (Body ι ν (List (Slot ρ)) ε)) :=
  let id := ctx.request.body.id
  let offset := ctx.request.body.offset
  let count := ctx.request.body.count
  tryCatch
    (do
      let votes ← iotexCore.getVotesByAddress id offset count
      pure { ctx with body := some (.okPage "voters" (cleanVotes votes) offset count) })
    (fun _ =>
      pure { ctx with body := some (.failCoded "FAIL_GET_ADDRESS_VOTES" "address.error.failGetVotes" id) })

end Handlers

/-! ## Route registration -/

/-- The handler functions defined in `setAddressRoutes`, by name. -/
inductive Handler where
  | addressHandler
  | getAddressId
  | getAddressTransfersId
  | getAddressExecutionsId
  | getAddressVotersId
  | getAddressSettleDepositsId
  | getAddressCreateDepositsId
  deriving DecidableEq, Repr

/-- A route descriptor `{method, name, endPoint, handler}`. -/
structure Route where
  method : String
  name : String
  endPoint : String
  handler : Handler
  deriving DecidableEq, Repr

/-- The constant `ADDRESS` imported from `../common/site-url`, whose values
are not part of the sources at hand: the end points are taken as given. -/
structure AddressUrls where
  INDEX : String
  GET_ADDRESS : String
  GET_TRANSFERS : String
  GET_EXECUTIONS : String
  GET_VOTERS : String
  GET_SETTLE_DEPOSITS : String
  GET_CREATE_DEPOSITS : String
  deriving DecidableEq, Repr

/-- The static list `routes` of `setAddressRoutes`. -/
def routes (ADDRESS : AddressUrls) : List Route :=
  [ { method := "get", name := "address", endPoint := ADDRESS.INDEX,
      handler := .addressHandler },
    { method := "post", name := "getAddressId", endPoint := ADDRESS.GET_ADDRESS,
      handler := .getAddressId },
    { method := "post", name := "getAddressTransfersId", endPoint := ADDRESS.GET_TRANSFERS,
      handler := .getAddressTransfersId },
    { method := "post", name := "getAddressExecutionsId", endPoint := ADDRESS.GET_EXECUTIONS,
      handler := .getAddressExecutionsId },
    { method := "post", name := "getAddressVotersId", endPoint := ADDRESS.GET_VOTERS,
      handler := .getAddressVotersId },
    { method := "post", name := "getAddressSettleDepositsId",
      endPoint := ADDRESS.GET_SETTLE_DEPOSITS, handler := .getAddressSettleDepositsId },
    { method := "post", name := "getAddressCreateDepositsId",
      endPoint := ADDRESS.GET_CREATE_DEPOSITS, handler := .getAddressCreateDepositsId } ]

/-- One call of a registration function of the server:
`server.get(name, endPoint, handler)` or `server.post(name, endPoint, handler)`. -/
inductive Registration where
  | get (name endPoint : String) (handler : Handler)
  | post (name endPoint : String) (handler : Handler)
  deriving DecidableEq, Repr

/-- The server, as far as registration goes: the calls of `get` and `post` it
has received, oldest first. -/
structure Server where
  registered : List Registration
  deriving DecidableEq, Repr

/-- The call `server.get(name, endPoint, handler)`. -/
def Server.get (server : Server) (name endPoint : String) (handler : Handler) : Server :=
  { server with registered := server.registered ++ [.get name endPoint handler] }

/-- The call `server.post(name, endPoint, handler)`. -/
def Server.post (server : Server) (name endPoint : String) (handler : Handler) : Server :=
  { server with registered := server.registered ++ [.post name endPoint handler] }

/-- The callback of `routes.map(route => ...)` in `setAddressRoutes`. -/
def registerRoute (server : Server) (route : Route) : Server :=
  if route.method = "get" then
    server.get route.name route.endPoint route.handler
  else if route.method = "post" then
    server.post route.name route.endPoint route.handler
  else
    server

/-- The registration loop `routes.map(route => ...)` over a list of route
descriptors: the callback runs on each descriptor in list order. -/
def registerRoutes (routes : List Route) (server : Server) : Server :=
  routes.foldl registerRoute server

/-- The registrations of `setAddressRoutes(server)`. -/
def setAddressRoutes (ADDRESS : AddressUrls) (server : Server) : Server :=
  registerRoutes (routes ADDRESS) server

/-! ## Dashboard statistics -/

/-- The fields of a `TCoinStatistic` that `formStats` reads (the type is
declared in `entities/explorer-types`, not part of the sources at hand); a
field that is `undefined` is `none`. -/
structure TCoinStatistic where
  height : Option Int
  transfers : Option Int
  executions : Option Int
  aps : Option Int
  votes : Option Int
  bh : Option Int
  deriving DecidableEq, Repr

/-- The subtitle of a dashboard entry: a formatted string, or the number
itself (the entry `bbh` does not format its value). -/
inductive Subtitle where
  | text (s : String)
  | number (n : Int)
  deriving DecidableEq, Repr

/-- A dashboard entry `{title, subtitle, icon, msg}`. -/
structure Stat where
  title : String
  subtitle : Subtitle
  icon : String
  msg : String
  deriving DecidableEq, Repr

/-- The expression `x || 0` on a numeric field: `0` when the field is
`undefined` (or is `0` already). -/
def orZero (x : Option Int) : Int :=
  match x with
  | some n => if n = 0 then 0 else n
  | none => 0

/-- The method `formStats(chainId, latestEpoch, stats)`; `t` is the
translation function of `lib/iso-i18n` and `toLocaleString` stands for
`Number(x).toLocaleString()`, both taken as given. A falsy `stats` is `none`.
The entries are pushed on `retval` in the order of the source. -/
def formStats (t : String → String) (toLocaleString : Int → String)
    (chainId : Int) (latestEpoch : Int) (stats : Option TCoinStatistic) : List Stat :=
  let epochs := toLocaleString latestEpoch
  match stats with
  | none =>
    [ { title := t "dashboard.epochs", subtitle := .text epochs,
        icon := "fas fa-question-circle", msg := "dashboard.epochsMsg" } ]
  | some stats =>
    let retval : List Stat := []
    let retval := retval ++
      [ { title := t "dashboard.blocks",
          subtitle := .text (toLocaleString (orZero stats.height + 1)),
          icon := "fas fa-question-circle", msg := "dashboard.blocksMsg" } ]
    let retval := retval ++
      [ { title := t "dashboard.transfers",
          subtitle := .text (toLocaleString (orZero stats.transfers)),
          icon := "fas fa-question-circle", msg := "dashboard.transfersMsg" } ]
    let retval := retval ++
      [ { title := t "dashboard.epochs", subtitle := .text epochs,
          icon := "fas fa-question-circle", msg := "dashboard.epochsMsg" } ]
    let retval := retval ++
      [ { title := t "dashboard.executions",
          subtitle := .text (toLocaleString (orZero stats.executions)),
          icon := "fas fa-question-circle", msg := "dashboard.executionsMsg" } ]
    let retval := retval ++
      [ { title := t "dashboard.faps",
          subtitle := .text (toLocaleString (orZero stats.aps)),
          icon := "fas fa-question-circle", msg := "dashboard.fapsMsg" } ]
    let retval :=
      if chainId = 1 then
        retval ++
          [ { title := t "dashboard.votes",
              subtitle := .text (toLocaleString (orZero stats.votes)),
              icon := "fas fa-question-circle", msg := "dashboard.votesMsg" } ]
      else retval
    retval ++
      [ { title := t "dashboard.bbh", subtitle := .number (orZero stats.bh),
          icon := "fas fa-question-circle", msg := "dashboard.bbhMsg" } ]

/-! ## A concrete gateway -/

/-- A gateway that knows the one address `io1qyqsyqcy`: its lookups resolve
for that id (with collections of two items, whatever `count` is) and reject
with the error `'not found'` for any other id. -/
def sampleGateway : Gateway String Nat String (List Nat) Unit String where
  getAddressDetails := fun id =>
    if id = "io1qyqsyqcy" then .ok "details" else .error "not found"
  getExecutionsByAddress := fun id _ _ =>
    if id = "io1qyqsyqcy" then .ok [11, 12] else .error "not found"
  getTransfersByAddress := fun id _ _ =>
    if id = "io1qyqsyqcy" then .ok [21, 22] else .error "not found"
  getSettleDepositsByAddress := fun id _ _ =>
    if id = "io1qyqsyqcy" then .ok [31, 32] else .error "not found"
  getCreateDepositsByAddress := fun id _ _ =>
    if id = "io1qyqsyqcy" then .ok [41, 42] else .error "not found"
  getVotesByAddress := fun id _ _ =>
    if id = "io1qyqsyqcy" then
      .ok (some [some (Vote.mk "a" none ()), none, some (Vote.mk "a" none ())])
    else .error "not found"

/-- A context for the request body `{id, offset, count}`, no response body
assigned yet. -/
def sampleCtx (β : Type) (id : String) (offset count : Nat) : Ctx String Nat β :=
  { request := { body := { id := id, offset := offset, count := count } }, body := none }

/-! ## Lemmas on the closing pass -/

section VoteLemmas

variable {ρ : Type}

/-- The record the loop pushes has the id of the record it read. -/
theorem closed_id (prevId : String) (v : Vote ρ) :
    (if prevId ≠ v.id then { v with out := some true } else v).id = v.id := by
  split_ifs <;> rfl

/-- The record the loop pushes has the other fields of the record it read. -/
theorem closed_fields (prevId : String) (v : Vote ρ) :
    (if prevId ≠ v.id then { v with out := some true } else v).fields = v.fields := by
  split_ifs <;> rfl

/-- One step of the loop on a record, with the array `res` taken out. -/
theorem cleanVotesLoop_acc (votes : List (Slot ρ)) (prevId : String) (res : List (Slot ρ)) :
    cleanVotesLoop votes prevId res = res ++ cleanVotesLoop votes prevId [] := by
  induction votes generalizing prevId res with
  | nil => simp [cleanVotesLoop]
  | cons s rest ih =>
    cases s with
    | none => simpa [cleanVotesLoop] using ih prevId res
    | some v =>
      simp only [cleanVotesLoop, closed_id]
      rw [ih v.id (res ++ _), ih v.id ([] ++ _)]
      simp

theorem cleanVotesLoop_none (rest : List (Slot ρ)) (prevId : String) :
    cleanVotesLoop (none :: rest) prevId [] = cleanVotesLoop rest prevId [] := by
  simp [cleanVotesLoop]

theorem cleanVotesLoop_some (v : Vote ρ) (rest : List (Slot ρ)) (prevId : String) :
    cleanVotesLoop (some v :: rest) prevId [] =
      some (if prevId ≠ v.id then { v with out := some true } else v) ::
        cleanVotesLoop rest v.id [] := by
  simp only [cleanVotesLoop, closed_id]
  rw [cleanVotesLoop_acc]
  simp

/-- The loop over `a ++ b` is the loop over `a` followed by the loop over `b`,
started from the state the first left. -/
theorem cleanVotesLoop_append (a b : List (Slot ρ)) (prevId : String) :
    cleanVotesLoop (a ++ b) prevId [] =
      cleanVotesLoop a prevId [] ++ cleanVotesLoop b (prevIdAfter a prevId) [] := by
  induction a generalizing prevId with
  | nil => simp [cleanVotesLoop, prevIdAfter]
  | cons s rest ih =>
    cases s with
    | none => simpa [cleanVotesLoop, prevIdAfter] using ih prevId
    | some v =>
      rw [List.cons_append, cleanVotesLoop_some, cleanVotesLoop_some, ih v.id]
      simp [prevIdAfter]

/-- Empty slots leave the state of the loop as it is. -/
theorem cleanVotesLoop_gaps (gaps : List (Slot ρ)) (h : ∀ s ∈ gaps, s = none)
    (prevId : String) :
    cleanVotesLoop gaps prevId [] = [] ∧ prevIdAfter gaps prevId = prevId := by
  induction gaps with
  | nil => simp [cleanVotesLoop, prevIdAfter]
  | cons s rest ih =>
    have hs : s = none := h s (List.mem_cons_self _ _)
    subst hs
    have := ih (fun s hs => h s (List.mem_cons_of_mem _ hs))
    simpa [cleanVotesLoop, prevIdAfter] using this

theorem length_cleanVotesLoop (votes : List (Slot ρ)) (prevId : String) :
    (cleanVotesLoop votes prevId []).length = votes.reduceOption.length := by
  induction votes generalizing prevId with
  | nil => simp [cleanVotesLoop]
  | cons s rest ih =>
    cases s with
    | none => simpa [cleanVotesLoop, List.reduceOption_cons_of_none] using ih prevId
    | some v =>
      rw [cleanVotesLoop_some, List.reduceOption_cons_of_some]
      simp [ih v.id]

theorem none_not_mem_cleanVotesLoop (votes : List (Slot ρ)) (prevId : String) :
    none ∉ cleanVotesLoop votes prevId [] := by
  induction votes generalizing prevId with
  | nil => simp [cleanVotesLoop]
  | cons s rest ih =>
    cases s with
    | none => simpa [cleanVotesLoop] using ih prevId
    | some v =>
      rw [cleanVotesLoop_some]
      simpa using ih v.id

/-- The output, `out` put aside, is the list of the records of the input. -/
theorem cleanVotesLoop_erase_out (votes : List (Slot ρ)) (prevId : String) :
    (cleanVotesLoop votes prevId []).map (Option.map fun v => (v.id, v.fields)) =
      votes.reduceOption.map (fun v => some (v.id, v.fields)) := by
  induction votes generalizing prevId with
  | nil => simp [cleanVotesLoop]
  | cons s rest ih =>
    cases s with
    | none => simpa [cleanVotesLoop, List.reduceOption_cons_of_none] using ih prevId
    | some v =>
      rw [cleanVotesLoop_some, List.reduceOption_cons_of_some]
      simp only [List.map_cons, Option.map_some', ih v.id]
      congr 3 <;> split_ifs <;> rfl

/-- The loop run on its own output, from the same `prevId`, gives it back. -/
theorem cleanVotesLoop_idem (votes : List (Slot ρ)) (prevId : String) :
    cleanVotesLoop (cleanVotesLoop votes prevId []) prevId [] =
      cleanVotesLoop votes prevId [] := by
  induction votes generalizing prevId with
  | nil => simp [cleanVotesLoop]
  | cons s rest ih =>
    cases s with
    | none => simpa [cleanVotesLoop] using ih prevId
    | some v =>
      rw [cleanVotesLoop_some, cleanVotesLoop_some, closed_id, ih v.id]
      congr 2
      split_ifs <;> rfl

end VoteLemmas

/-! ## The closing pass: claims -/

section VoteClaims

variable {ρ : Type}

/-- C1. Marking rule of the closing pass. Let `r` be a non-empty record of the
input and `gaps` the empty slots right before it. When `r` is the first
non-empty record (only `gaps` before it), its record in the output, at
position 0, has `out = true` if `r.id` differs from `''` and the `out` of the
input if `r.id` is `''`. When the nearest preceding non-empty record is `q`
(after any slots `pre`), the record of `r` in the output, at the position after
the records of `pre` and `q`, has `out = true` if `r.id` differs from `q.id`
and the `out` of the input if `r.id` equals `q.id`. In both cases the id and
the other fields are those of `r`. -/
theorem cleanVotes_marking_rule (pre gaps post : List (Slot ρ)) (r : Vote ρ)
    (hgaps : ∀ s ∈ gaps, s = none) :
    (∃ r' : Vote ρ,
        (cleanVotes (some (gaps ++ some r :: post)))[0]? = some (some r') ∧
        r'.id = r.id ∧ r'.fields = r.fields ∧
        (r.id ≠ "" → r'.out = some true) ∧ (r.id = "" → r'.out = r.out)) ∧
    (∀ q : Vote ρ, ∃ r' : Vote ρ,
        (cleanVotes (some (pre ++ some q :: (gaps ++ some r :: post))))[
            pre.reduceOption.length + 1]? = some (some r') ∧
        r'.id = r.id ∧ r'.fields = r.fields ∧
        (r.id ≠ q.id → r'.out = some true) ∧ (r.id = q.id → r'.out = r.out)) := by
  have key : ∀ p : String, ∃ r' : Vote ρ,
      (cleanVotesLoop (gaps ++ some r :: post) p [])[0]? = some (some r') ∧
      r'.id = r.id ∧ r'.fields = r.fields ∧
      (r.id ≠ p → r'.out = some true) ∧ (r.id = p → r'.out = r.out) := by
    intro p
    refine ⟨if p ≠ r.id then { r with out := some true } else r, ?_, closed_id p r,
      closed_fields p r, ?_, ?_⟩
    · rw [cleanVotesLoop_append, (cleanVotesLoop_gaps gaps hgaps p).1,
        (cleanVotesLoop_gaps gaps hgaps p).2, cleanVotesLoop_some]
      simp
    · intro h
      rw [if_pos (fun e => h e.symm)]
    · intro h
      rw [if_neg (fun e => e h.symm)]
  refine ⟨key "", ?_⟩
  intro q
  obtain ⟨r', h0, hrest⟩ := key q.id
  refine ⟨r', ?_, hrest⟩
  have hlen : (cleanVotesLoop pre "" [] ++
      [some (if prevIdAfter pre "" ≠ q.id then { q with out := some true } else q)]).length =
      pre.reduceOption.length + 1 := by
    simp [length_cleanVotesLoop]
  show (cleanVotesLoop (pre ++ some q :: (gaps ++ some r :: post)) "" [])[
      pre.reduceOption.length + 1]? = some (some r')
  rw [cleanVotesLoop_append, cleanVotesLoop_some, List.append_cons, ← hlen,
    List.getElem?_append_right (le_refl _)]
  simpa using h0

/-- C1, at concrete inputs: `[{id:'a'}, {id:'a'}]` gives
`[{id:'a', out:true}, {id:'a'}]`, and the rule applied to the record
`{id:'b'}` of `[{id:'a'}, undefined, {id:'b'}]`. -/
theorem cleanVotes_marking_rule_witness :
    cleanVotes (some [some (Vote.mk "a" none ()), some (Vote.mk "a" none ())]) =
      [some (Vote.mk "a" (some true) ()), some (Vote.mk "a" none ())] ∧
    (∀ q : Vote Unit, ∃ r' : Vote Unit,
      (cleanVotes (some ([] ++ some q :: ([none] ++ some (Vote.mk "b" none ()) :: []))))[
          ([] : List (Slot Unit)).reduceOption.length + 1]? = some (some r') ∧
      r'.id = "b" ∧ r'.fields = () ∧
      ("b" ≠ q.id → r'.out = some true) ∧ ("b" = q.id → r'.out = none)) :=
  ⟨by decide,
    (cleanVotes_marking_rule [] [none] [] (Vote.mk "b" none ()) (by decide)).2⟩

/-- C2. Gap removal and order: an absent input and an empty input give the
empty sequence; for every input the output has no empty slot, as many records
as the input has non-empty slots, and, `out` put aside, it is the sequence of
the non-empty records of the input in their order (same id, same other
fields). -/
theorem cleanVotes_gap_removal (votes : List (Slot ρ)) :
    cleanVotes (none : Option (List (Slot ρ))) = [] ∧
    cleanVotes (some ([] : List (Slot ρ))) = [] ∧
    none ∉ cleanVotes (some votes) ∧
    (cleanVotes (some votes)).length = votes.reduceOption.length ∧
    (cleanVotes (some votes)).map (Option.map fun v => (v.id, v.fields)) =
      votes.reduceOption.map (fun v => some (v.id, v.fields)) :=
  ⟨rfl, rfl, none_not_mem_cleanVotesLoop votes "", length_cleanVotesLoop votes "",
    cleanVotesLoop_erase_out votes ""⟩

/-- C3, as stated, fails: the input `[{id:''}]` has a non-empty record and the
first record of the output has no `out`. -/
theorem cleanVotes_first_record_empty_id_unmarked :
    cleanVotes (some [some (Vote.mk "" none ())]) = [some (Vote.mk "" none ())] ∧
    ¬ ∃ r' : Vote Unit,
      (cleanVotes (some [some (Vote.mk "" none ())])).head? = some (some r') ∧
        r'.out = some true := by
  have hrun : cleanVotes (some [some (Vote.mk "" none ())]) = [some (Vote.mk "" none ())] := by
    decide
  refine ⟨hrun, ?_⟩
  rintro ⟨r', hhead, hout⟩
  rw [hrun] at hhead
  simp only [List.head?_cons, Option.some.injEq] at hhead
  subst hhead
  exact absurd hout (by decide)

/-- C3, amended. For every input whose first non-empty record `r` has an id
other than the empty string, the first record of the output is `r` with
`out = true`. -/
theorem cleanVotes_first_record_marked (votes : List (Slot ρ)) (r : Vote ρ)
    (hfirst : votes.reduceOption.head? = some r) (hid : r.id ≠ "") :
    (cleanVotes (some votes)).head? = some (some { r with out := some true }) := by
  show (cleanVotesLoop votes "" []).head? = _
  induction votes with
  | nil => simp at hfirst
  | cons s rest ih =>
    cases s with
    | none =>
      rw [List.reduceOption_cons_of_none] at hfirst
      simpa [cleanVotesLoop] using ih hfirst
    | some v =>
      rw [List.reduceOption_cons_of_some] at hfirst
      simp only [List.head?_cons, Option.some.injEq] at hfirst
      subst hfirst
      rw [cleanVotesLoop_some, if_pos (fun e => hid e.symm)]
      rfl

/-- C3 amended, at the input `[undefined, {id:'a'}]`. -/
theorem cleanVotes_first_record_marked_witness :
    (cleanVotes (some [none, some (Vote.mk "a" none ())])).head? =
      some (some { (Vote.mk "a" none ()) with out := some true }) :=
  cleanVotes_first_record_marked [none, some (Vote.mk "a" none ())] (Vote.mk "a" none ())
    (by decide) (by decide)

/-- C4, as stated, fails: on `[{id:'a'}]`, where no record has `out` set, the
only record of the output has `out = true` and no later record carries its
id. -/
theorem cleanVotes_out_not_superseded :
    ∃ r' : Vote Unit,
      (cleanVotes (some [some (Vote.mk "a" none ())]))[0]? = some (some r') ∧
      r'.out = some true ∧
      ¬ ∃ j : Nat, 0 < j ∧ ∃ r'' : Vote Unit,
        (cleanVotes (some [some (Vote.mk "a" none ())]))[j]? = some (some r'') ∧
          r''.id = r'.id := by
  have hrun : cleanVotes (some [some (Vote.mk "a" none ())]) =
      [some (Vote.mk "a" (some true) ())] := by
    decide
  refine ⟨Vote.mk "a" (some true) (), by rw [hrun]; rfl, rfl, ?_⟩
  rintro ⟨j, hj, r'', hget, -⟩
  rw [hrun] at hget
  cases j with
  | zero => exact absurd hj (by decide)
  | succ j => simp at hget

/-- C4, amended. For every input in which no record has `out = true`, the
`k`-th record of the output has `out = true` exactly when its id differs from
the id of the record before it among the non-empty records of the input, and
from `''` when it is the first. -/
theorem cleanVotes_out_iff_id_changes (votes : List (Slot ρ))
    (hout : ∀ v : Vote ρ, some v ∈ votes → v.out ≠ some true) (k : Nat) (r' : Vote ρ)
    (hk : (cleanVotes (some votes))[k]? = some (some r')) :
    r'.out = some true ↔ some r'.id ≠ ("" :: votes.reduceOption.map Vote.id)[k]? := by
  have key : ∀ (votes : List (Slot ρ)) (p : String) (k : Nat),
      (∀ v : Vote ρ, some v ∈ votes → v.out ≠ some true) →
      (cleanVotesLoop votes p [])[k]? = some (some r') →
      (r'.out = some true ↔ some r'.id ≠ (p :: votes.reduceOption.map Vote.id)[k]?) := by
    intro votes
    induction votes with
    | nil => intro p k _ h; simp [cleanVotesLoop] at h
    | cons s rest ih =>
      intro p k hout h
      have hrest : ∀ v : Vote ρ, some v ∈ rest → v.out ≠ some true :=
        fun v hv => hout v (List.mem_cons_of_mem _ hv)
      cases s with
      | none =>
        rw [cleanVotesLoop_none] at h
        rw [List.reduceOption_cons_of_none]
        exact ih p k hrest h
      | some v =>
        have hv : v.out ≠ some true := hout v (List.mem_cons_self _ _)
        rw [cleanVotesLoop_some] at h
        rw [List.reduceOption_cons_of_some]
        cases k with
        | zero =>
          simp only [List.getElem?_cons_zero, Option.some.injEq] at h
          subst h
          by_cases hp : p = v.id
          · simp [hp, hv]
          · simp [hp, Ne.symm hp]
        | succ k =>
          simp only [List.getElem?_cons_succ, List.map_cons] at h ⊢
          exact ih v.id k hrest h
  exact key votes "" k hout hk

/-- C4 amended, at the input `[{id:'a'}, {id:'a'}]` and its second record. -/
theorem cleanVotes_out_iff_id_changes_witness :
    (Vote.mk "a" none ()).out = some true ↔
      some (Vote.mk "a" none ()).id ≠
        ("" :: [some (Vote.mk "a" none ()), some (Vote.mk "a" none ())].reduceOption.map
          Vote.id)[1]? :=
  cleanVotes_out_iff_id_changes [some (Vote.mk "a" none ()), some (Vote.mk "a" none ())]
    (by intro v hv; simp at hv; subst hv; decide) 1 (Vote.mk "a" none ()) (by decide)

/-- C9. Vote-closing idempotence: for every input `v`, absent or a sequence
of slots, `cleanVotes(cleanVotes(v))` is `cleanVotes(v)`. -/
theorem cleanVotes_idempotent (votes : Option (List (Slot ρ))) :
    cleanVotes (some (cleanVotes votes)) = cleanVotes votes := by
  cases votes with
  | none => rfl
  | some votes => exact cleanVotesLoop_idem votes ""

end VoteClaims

/-! ## The handlers: claims -/

section HandlerClaims

variable {ι ν δ γ ρ ε : Type}

/-- C5. Address detail envelope: `getAddressId` never raises; when the gateway
call `getAddressDetails(id)` returns `v` the body is `{ok: true, address: v}`,
when it throws, whatever the error, the body is `{ok: false, error: {code:
'FAIL_GET_ADDRESS', message: 'address.error.failGetAddress', data: {id}}}` with
the id of the request; so `body.ok` is true exactly when the gateway call
succeeded. -/
theorem getAddressId_envelope (iotexCore : Gateway ι ν δ γ ρ ε)
    (ctx : Ctx ι ν (Body ι ν δ ε)) :
    (∀ v : δ, iotexCore.getAddressDetails ctx.request.body.id = .ok v →
      getAddressId iotexCore ctx = .ok ⟨ctx.request, some (.okData "address" v)⟩) ∧
    (∀ e : ε, iotexCore.getAddressDetails ctx.request.body.id = .error e →
      getAddressId iotexCore ctx = .ok ⟨ctx.request, some
        (.failCoded "FAIL_GET_ADDRESS" "address.error.failGetAddress" ctx.request.body.id)⟩) ∧
    (∃ (ctx' : Ctx ι ν (Body ι ν δ ε)) (b : Body ι ν δ ε),
      getAddressId iotexCore ctx = .ok ctx' ∧ ctx'.request = ctx.request ∧
      ctx'.body = some b ∧
      (b.ok = true ↔ ∃ v : δ, iotexCore.getAddressDetails ctx.request.body.id = .ok v)) := by
  have hok : ∀ v : δ, iotexCore.getAddressDetails ctx.request.body.id = .ok v →
      getAddressId iotexCore ctx = .ok ⟨ctx.request, some (.okData "address" v)⟩ := by
    intro v h
    simp only [getAddressId, h]
    rfl
  have herr : ∀ e : ε, iotexCore.getAddressDetails ctx.request.body.id = .error e →
      getAddressId iotexCore ctx = .ok ⟨ctx.request, some
        (.failCoded "FAIL_GET_ADDRESS" "address.error.failGetAddress" ctx.request.body.id)⟩ := by
    intro e h
    simp only [getAddressId, h]
    rfl
  refine ⟨hok, herr, ?_⟩
  cases h : iotexCore.getAddressDetails ctx.request.body.id with
  | ok v => exact ⟨_, _, hok v h, rfl, rfl, by simp [Body.ok]⟩
  | error e => exact ⟨_, _, herr e h, rfl, rfl, by simp [Body.ok]⟩

/-- C5, at the sample gateway: a known id and an unknown one. -/
theorem getAddressId_envelope_witness :
    getAddressId sampleGateway (sampleCtx (Body String Nat String String) "io1qyqsyqcy" 0 10) =
      .ok ⟨⟨⟨"io1qyqsyqcy", 0, 10⟩⟩, some (.okData "address" "details")⟩ ∧
    getAddressId sampleGateway (sampleCtx (Body String Nat String String) "io1zzzz" 0 10) =
      .ok ⟨⟨⟨"io1zzzz", 0, 10⟩⟩, some
        (.failCoded "FAIL_GET_ADDRESS" "address.error.failGetAddress" "io1zzzz")⟩ :=
  ⟨(getAddressId_envelope sampleGateway (sampleCtx _ "io1qyqsyqcy" 0 10)).1 "details" rfl,
    (getAddressId_envelope sampleGateway (sampleCtx _ "io1zzzz" 0 10)).2.1 "not found" rfl⟩

/-- C6. Pagination echo: for each relation handler (executions, transfers,
settle-deposits, create-deposits, voters), every request `{id, offset, count}`
and every collection `c` the gateway returns, the handler does not raise and
the body is `{ok: true, [key]: c, offset, count}` with the relation's key (for
voters: `cleanVotes(c)` under `voters`) and the offset and count of the
request, whatever `c` is. -/
theorem relation_handlers_echo_pagination (iotexCore : Gateway ι ν δ γ ρ ε)
    (id : ι) (offset count : ν) :
    (∀ c : γ, iotexCore.getExecutionsByAddress id offset count = .ok c →
      ∀ b, getAddressExecutionsId iotexCore ⟨⟨⟨id, offset, count⟩⟩, b⟩ =
        .ok ⟨⟨⟨id, offset, count⟩⟩, some (.okPage "executions" c offset count)⟩) ∧
    (∀ c : γ, iotexCore.getTransfersByAddress id offset count = .ok c →
      ∀ b, getAddressTransfersId iotexCore ⟨⟨⟨id, offset, count⟩⟩, b⟩ =
        .ok ⟨⟨⟨id, offset, count⟩⟩, some (.okPage "transfers" c offset count)⟩) ∧
    (∀ c : γ, iotexCore.getSettleDepositsByAddress id offset count = .ok c →
      ∀ b, getAddressSettleDepositsId iotexCore ⟨⟨⟨id, offset, count⟩⟩, b⟩ =
        .ok ⟨⟨⟨id, offset, count⟩⟩, some (.okPage "settleDeposits" c offset count)⟩) ∧
    (∀ c : γ, iotexCore.getCreateDepositsByAddress id offset count = .ok c →
      ∀ b, getAddressCreateDepositsId iotexCore ⟨⟨⟨id, offset, count⟩⟩, b⟩ =
        .ok ⟨⟨⟨id, offset, count⟩⟩, some (.okPage "createDeposits" c offset count)⟩) ∧
    (∀ c : Option (List (Slot ρ)), iotexCore.getVotesByAddress id offset count = .ok c →
      ∀ b, getAddressVotersId iotexCore ⟨⟨⟨id, offset, count⟩⟩, b⟩ =
        .ok ⟨⟨⟨id, offset, count⟩⟩, some (.okPage "voters" (cleanVotes c) offset count)⟩) ∧
    (∀ (key : String) (α : Type) (c : α),
      (Body.okPage key c offset count : Body ι ν α ε).ok = true) := by
  refine ⟨?_, ?_, ?_, ?_, ?_, fun _ _ _ => rfl⟩
  · intro c h b
    simp only [getAddressExecutionsId, h]
    rfl
  · intro c h b
    simp only [getAddressTransfersId, h]
    rfl
  · intro c h b
    simp only [getAddressSettleDepositsId, h]
    rfl
  · intro c h b
    simp only [getAddressCreateDepositsId, h]
    rfl
  · intro c h b
    simp only [getAddressVotersId, h]
    rfl

/-- C6, at the sample gateway: the request asks for ten items from offset 3,
the gateway returns two, and the body echoes offset 3 and count 10. -/
theorem relation_handlers_echo_pagination_witness :
    getAddressExecutionsId sampleGateway (sampleCtx _ "io1qyqsyqcy" 3 10) =
      .ok ⟨⟨⟨"io1qyqsyqcy", 3, 10⟩⟩, some (.okPage "executions" [11, 12] 3 10)⟩ ∧
    getAddressTransfersId sampleGateway (sampleCtx _ "io1qyqsyqcy" 3 10) =
      .ok ⟨⟨⟨"io1qyqsyqcy", 3, 10⟩⟩, some (.okPage "transfers" [21, 22] 3 10)⟩ ∧
    getAddressSettleDepositsId sampleGateway (sampleCtx _ "io1qyqsyqcy" 3 10) =
      .ok ⟨⟨⟨"io1qyqsyqcy", 3, 10⟩⟩, some (.okPage "settleDeposits" [31, 32] 3 10)⟩ ∧
    getAddressCreateDepositsId sampleGateway (sampleCtx _ "io1qyqsyqcy" 3 10) =
      .ok ⟨⟨⟨"io1qyqsyqcy", 3, 10⟩⟩, some (.okPage "createDeposits" [41, 42] 3 10)⟩ ∧
    getAddressVotersId sampleGateway (sampleCtx _ "io1qyqsyqcy" 3 10) =
      .ok ⟨⟨⟨"io1qyqsyqcy", 3, 10⟩⟩, some (.okPage "voters"
        (cleanVotes (some [some (Vote.mk "a" none ()), none, some (Vote.mk "a" none ())]))
        3 10)⟩ :=
  ⟨(relation_handlers_echo_pagination sampleGateway "io1qyqsyqcy" 3 10).1 _ rfl none,
    (relation_handlers_echo_pagination sampleGateway "io1qyqsyqcy" 3 10).2.1 _ rfl none,
    (relation_handlers_echo_pagination sampleGateway "io1qyqsyqcy" 3 10).2.2.1 _ rfl none,
    (relation_handlers_echo_pagination sampleGateway "io1qyqsyqcy" 3 10).2.2.2.1 _ rfl none,
    (relation_handlers_echo_pagination sampleGateway "io1qyqsyqcy" 3 10).2.2.2.2.1 _ rfl none⟩

/-- C7. Failure envelope of the relation handlers: for every request and
every error `e` thrown by the gateway call, the handler does not raise and the
body is `{ok: false, error: {code, message, data: {id}}}` with the id of the
request and the code and message of the relation, the same for every `e`;
except for executions, whose body is `{ok: false, error: e}`. -/
theorem relation_handlers_failure_envelope (iotexCore : Gateway ι ν δ γ ρ ε)
    (id : ι) (offset count : ν) :
    (∀ e : ε, iotexCore.getTransfersByAddress id offset count = .error e →
      ∀ b, getAddressTransfersId iotexCore ⟨⟨⟨id, offset, count⟩⟩, b⟩ =
        .ok ⟨⟨⟨id, offset, count⟩⟩, some
          (.failCoded "FAIL_GET_ADDRESS_TRANSFERS" "address.error.failGetTransfers" id)⟩) ∧
    (∀ e : ε, iotexCore.getSettleDepositsByAddress id offset count = .error e →
      ∀ b, getAddressSettleDepositsId iotexCore ⟨⟨⟨id, offset, count⟩⟩, b⟩ =
        .ok ⟨⟨⟨id, offset, count⟩⟩, some
          (.failCoded "FAIL_GET_SETTLE_DEPOSITS" "address.error.failGetSettleDeposits" id)⟩) ∧
    (∀ e : ε, iotexCore.getCreateDepositsByAddress id offset count = .error e →
      ∀ b, getAddressCreateDepositsId iotexCore ⟨⟨⟨id, offset, count⟩⟩, b⟩ =
        .ok ⟨⟨⟨id, offset, count⟩⟩, some
          (.failCoded "FAIL_GET_CREATE_DEPOSITS" "address.error.failGetCreateDeposits" id)⟩) ∧
    (∀ e : ε, iotexCore.getVotesByAddress id offset count = .error e →
      ∀ b, getAddressVotersId iotexCore ⟨⟨⟨id, offset, count⟩⟩, b⟩ =
        .ok ⟨⟨⟨id, offset, count⟩⟩, some
          (.failCoded "FAIL_GET_ADDRESS_VOTES" "address.error.failGetVotes" id)⟩) ∧
    (∀ e : ε, iotexCore.getExecutionsByAddress id offset count = .error e →
      ∀ b, getAddressExecutionsId iotexCore ⟨⟨⟨id, offset, count⟩⟩, b⟩ =
        .ok ⟨⟨⟨id, offset, count⟩⟩, some (.failRaw e)⟩) ∧
    (∀ (code message : String) (α : Type) (e : ε),
      (Body.failCoded code message id : Body ι ν α ε).ok = false ∧
      (Body.failRaw e : Body ι ν α ε).ok = false) := by
  refine ⟨?_, ?_, ?_, ?_, ?_, fun _ _ _ _ => ⟨rfl, rfl⟩⟩
  · intro e h b
    simp only [getAddressTransfersId, h]
    rfl
  · intro e h b
    simp only [getAddressSettleDepositsId, h]
    rfl
  · intro e h b
    simp only [getAddressCreateDepositsId, h]
    rfl
  · intro e h b
    simp only [getAddressVotersId, h]
    rfl
  · intro e h b
    simp only [getAddressExecutionsId, h]
    rfl

/-- C7, at the sample gateway and an id it does not know: the gateway throws
`'not found'`; four bodies carry the code of their relation, the body of
executions carries the error thrown. -/
theorem relation_handlers_failure_envelope_witness :
    getAddressTransfersId sampleGateway (sampleCtx _ "io1zzzz" 3 10) =
      .ok ⟨⟨⟨"io1zzzz", 3, 10⟩⟩, some
        (.failCoded "FAIL_GET_ADDRESS_TRANSFERS" "address.error.failGetTransfers" "io1zzzz")⟩ ∧
    getAddressSettleDepositsId sampleGateway (sampleCtx _ "io1zzzz" 3 10) =
      .ok ⟨⟨⟨"io1zzzz", 3, 10⟩⟩, some
        (.failCoded "FAIL_GET_SETTLE_DEPOSITS" "address.error.failGetSettleDeposits"
          "io1zzzz")⟩ ∧
    getAddressCreateDepositsId sampleGateway (sampleCtx _ "io1zzzz" 3 10) =
      .ok ⟨⟨⟨"io1zzzz", 3, 10⟩⟩, some
        (.failCoded "FAIL_GET_CREATE_DEPOSITS" "address.error.failGetCreateDeposits"
          "io1zzzz")⟩ ∧
    getAddressVotersId sampleGateway (sampleCtx _ "io1zzzz" 3 10) =
      .ok ⟨⟨⟨"io1zzzz", 3, 10⟩⟩, some
        (.failCoded "FAIL_GET_ADDRESS_VOTES" "address.error.failGetVotes" "io1zzzz")⟩ ∧
    getAddressExecutionsId sampleGateway (sampleCtx _ "io1zzzz" 3 10) =
      .ok ⟨⟨⟨"io1zzzz", 3, 10⟩⟩, some (.failRaw "not found")⟩ :=
  ⟨(relation_handlers_failure_envelope sampleGateway "io1zzzz" 3 10).1 _ rfl none,
    (relation_handlers_failure_envelope sampleGateway "io1zzzz" 3 10).2.1 _ rfl none,
    (relation_handlers_failure_envelope sampleGateway "io1zzzz" 3 10).2.2.1 _ rfl none,
    (relation_handlers_failure_envelope sampleGateway "io1zzzz" 3 10).2.2.2.1 _ rfl none,
    (relation_handlers_failure_envelope sampleGateway "io1zzzz" 3 10).2.2.2.2.1 _ rfl none⟩

end HandlerClaims

/-! ## Route registration: claims -/

/-- The registration loop appends, to the calls the server had received, the
calls of the descriptors in list order. -/
theorem registerRoutes_registered (routes : List Route) (server : Server) :
    (registerRoutes routes server).registered =
      server.registered ++ routes.filterMap (fun route =>
        if route.method = "get" then
          some (Registration.get route.name route.endPoint route.handler)
        else if route.method = "post" then
          some (Registration.post route.name route.endPoint route.handler)
        else none) := by
  induction routes generalizing server with
  | nil => simp [registerRoutes]
  | cons route rest ih =>
    have hstep : registerRoutes (route :: rest) server =
        registerRoutes rest (registerRoute server route) := rfl
    rw [hstep, ih]
    by_cases hget : route.method = "get"
    · simp [registerRoute, Server.get, hget]
    · by_cases hpost : route.method = "post"
      · simp [registerRoute, Server.post, hget, hpost]
      · simp [registerRoute, hget, hpost]

/-- C8. Route registration dispatch: run over any list of route descriptors,
the loop of `setAddressRoutes` makes, in list order, one call of the server's
`get` for each descriptor whose method is `'get'` and one call of `post` for
each whose method is `'post'`, with the descriptor's name, end point and
handler; a descriptor with another method leaves the server as it is. For the
static list the calls are one `get` (`'address'`) and six `post`, seven in
all. -/
theorem registerRoutes_dispatch (routes : List Route) (server : Server)
    (ADDRESS : AddressUrls) :
    (registerRoutes routes server).registered =
      server.registered ++ routes.filterMap (fun route =>
        if route.method = "get" then
          some (Registration.get route.name route.endPoint route.handler)
        else if route.method = "post" then
          some (Registration.post route.name route.endPoint route.handler)
        else none) ∧
    (∀ route : Route, route.method ≠ "get" → route.method ≠ "post" →
      registerRoute server route = server) ∧
    (setAddressRoutes ADDRESS ⟨[]⟩).registered =
      [ .get "address" ADDRESS.INDEX .addressHandler,
        .post "getAddressId" ADDRESS.GET_ADDRESS .getAddressId,
        .post "getAddressTransfersId" ADDRESS.GET_TRANSFERS .getAddressTransfersId,
        .post "getAddressExecutionsId" ADDRESS.GET_EXECUTIONS .getAddressExecutionsId,
        .post "getAddressVotersId" ADDRESS.GET_VOTERS .getAddressVotersId,
        .post "getAddressSettleDepositsId" ADDRESS.GET_SETTLE_DEPOSITS
          .getAddressSettleDepositsId,
        .post "getAddressCreateDepositsId" ADDRESS.GET_CREATE_DEPOSITS
          .getAddressCreateDepositsId ] ∧
    (setAddressRoutes ADDRESS ⟨[]⟩).registered.length = 7 := by
  refine ⟨registerRoutes_registered routes server, ?_, ?_, ?_⟩
  · intro route hget hpost
    simp [registerRoute, hget, hpost]
  · rfl
  · rfl

/-- C8, at a list with a method the loop does not know: the `'put'`
descriptor is skipped, the other two are registered in their order. -/
theorem registerRoutes_dispatch_witness :
    (registerRoutes
        [ ⟨"post", "a", "/a", .getAddressId⟩, ⟨"put", "b", "/b", .getAddressVotersId⟩,
          ⟨"get", "c", "/c", .addressHandler⟩ ] ⟨[]⟩).registered =
      [ .post "a" "/a" .getAddressId, .get "c" "/c" .addressHandler ] ∧
    registerRoute ⟨[]⟩ ⟨"put", "b", "/b", .getAddressVotersId⟩ = ⟨[]⟩ :=
  ⟨by
      have h := (registerRoutes_dispatch
        [ ⟨"post", "a", "/a", .getAddressId⟩, ⟨"put", "b", "/b", .getAddressVotersId⟩,
          ⟨"get", "c", "/c", .addressHandler⟩ ] ⟨[]⟩ ⟨"", "", "", "", "", "", ""⟩).1
      rw [h]
      decide,
    (registerRoutes_dispatch [] ⟨[]⟩ ⟨"", "", "", "", "", "", ""⟩).2.1
      ⟨"put", "b", "/b", .getAddressVotersId⟩ (by decide) (by decide)⟩

/-! ## Dashboard statistics: claims -/

/-- C10. Shape of the dashboard statistics: with `stats` absent `formStats`
returns the one entry of the epochs; with `stats` present it returns seven
entries if `chainId` is 1 and six otherwise, in the order blocks, transfers,
epochs, executions, faps, votes (only if `chainId` is 1), bbh; so the votes
entry is there exactly when `stats` is present and `chainId` is 1, and the
epochs entry is there in every case. -/
theorem formStats_shape (t : String → String) (toLocaleString : Int → String)
    (chainId latestEpoch : Int) (stats : Option TCoinStatistic) :
    ((formStats t toLocaleString chainId latestEpoch stats).map Stat.msg =
      match stats with
      | none => ["dashboard.epochsMsg"]
      | some _ =>
        if chainId = 1 then
          ["dashboard.blocksMsg", "dashboard.transfersMsg", "dashboard.epochsMsg",
            "dashboard.executionsMsg", "dashboard.fapsMsg", "dashboard.votesMsg",
            "dashboard.bbhMsg"]
        else
          ["dashboard.blocksMsg", "dashboard.transfersMsg", "dashboard.epochsMsg",
            "dashboard.executionsMsg", "dashboard.fapsMsg", "dashboard.bbhMsg"]) ∧
    ((formStats t toLocaleString chainId latestEpoch stats).length =
      match stats with
      | none => 1
      | some _ => if chainId = 1 then 7 else 6) ∧
    ("dashboard.votesMsg" ∈ (formStats t toLocaleString chainId latestEpoch stats).map Stat.msg ↔
      stats.isSome = true ∧ chainId = 1) ∧
    "dashboard.epochsMsg" ∈ (formStats t toLocaleString chainId latestEpoch stats).map Stat.msg ∧
    (∀ entry ∈ formStats t toLocaleString chainId latestEpoch stats,
      entry.msg = "dashboard.epochsMsg" →
        entry.title = t "dashboard.epochs" ∧
        entry.subtitle = .text (toLocaleString latestEpoch)) := by
  cases stats with
  | none => simp [formStats]
  | some s =>
    by_cases h : chainId = 1
    · simp [formStats, h]
    · simp [formStats, h]

/-- C10, at chain 1 and at chain 2 with statistics, and with none. -/
theorem formStats_shape_witness :
    (formStats id toString 1 5 (some ⟨some 9, none, none, none, none, none⟩)).length = 7 ∧
    (formStats id toString 2 5 (some ⟨some 9, none, none, none, none, none⟩)).length = 6 ∧
    (formStats id toString 1 5 none).length = 1 :=
  ⟨(formStats_shape id toString 1 5 (some ⟨some 9, none, none, none, none, none⟩)).2.1,
    (formStats_shape id toString 2 5 (some ⟨some 9, none, none, none, none, none⟩)).2.1,
    (formStats_shape id toString 1 5 none).2.1⟩

end IotexExplorer
